import Mathlib

/-!
Shallow embedding of the Nusantara maritime movement system
(`src/movement.py`) and verification of its specification claims.

Python floats are modelled as rationals (`ℚ`), Python dicts as
association lists with unique keys, and the ambient random source as an
explicit `VoyageDraw` record passed into the navigation step.
-/

attribute [local semireducible] Rat.mul Rat.inv Rat.add Rat.sub Rat.ofScientific

/-- Monsoon cycle phases affecting inter-island movement
(`MonsoonPhase` enum in the source). -/
inductive MonsoonPhase where
  | northeast
  | southwest
  | transition
deriving DecidableEq, Repr

/-- Island specialization types (`IslandSpecialization` enum). -/
inductive IslandSpecialization where
  | maritime_hub
  | spice_producer
  | cultural_node
  | tech_entrepot
deriving DecidableEq, Repr

/-- Network-wide synchronization states (`NetworkState` enum). -/
inductive NetworkState where
  | fragmented
  | connecting
  | synchronized
  | disrupted
  | transcendent
deriving DecidableEq, Repr

/-- State of an individual island node (`IslandState` dataclass). -/
structure IslandState where
  name : String
  specialization : IslandSpecialization
  autonomy_level : ℚ
  network_connectivity : ℚ
  cultural_resonance : List (String × ℚ)
  resource_capacity : Int
  innovation_index : ℚ
deriving DecidableEq, Repr

/-- Result of an inter-island navigation attempt (`NavigationResult`). -/
structure NavigationResult where
  success : Bool
  origin_island : String
  destination_island : String
  route_taken : String
  monsoon_favorable : Bool
  cultural_exchange : List (String × Int)
  trade_volume : Int
  knowledge_transferred : List String
  network_effects : List String
deriving DecidableEq, Repr

/-- Monsoon cycle state (`MonsoonCalculator.__init__`):
current phase plus the internal day counter. -/
structure MonsoonCalculator where
  current_phase : MonsoonPhase
  day_counter : Int
deriving DecidableEq, Repr

/-- Days per phase (`self._phase_duration = 180`). -/
def phase_duration : Int := 180

/-- The transition map of `MonsoonCalculator._transition_phase`: the Python
dict has northeast ↦ transition, transition ↦ southwest, southwest ↦
transition (the `.get` default `NORTHEAST_MONSOON` is unreachable since
all three phases are keys). -/
def transition_phase_map (p : MonsoonPhase) : MonsoonPhase :=
  match p with
  | .northeast => .transition
  | .transition => .southwest
  | .southwest => .transition

/-- `MonsoonCalculator.advance_cycle(days)`: add to the day counter;
when it reaches the phase duration, reset to 0 and transition. -/
def MonsoonCalculator.advance_cycle (m : MonsoonCalculator) (days : Int) :
    MonsoonCalculator :=
  let c := m.day_counter + days
  if c ≥ phase_duration then
    { current_phase := transition_phase_map m.current_phase, day_counter := 0 }
  else
    { current_phase := m.current_phase, day_counter := c }

/-- Python `str.lower()` on island names (a structural, kernel-reducible
form of character-wise lowercasing). -/
def strLower (s : String) : String := String.mk (s.data.map Char.toLower)

/-- Python builtin `min` on two floats (kernel-reducible form). -/
def fmin (a b : ℚ) : ℚ := if a ≤ b then a else b

/-- Python builtin `max` on two floats (kernel-reducible form). -/
def fmax (a b : ℚ) : ℚ := if b ≤ a then a else b

/-- Association-list lookup, the embedding of Python `dict.get` (returns
the value of the first matching key, `none` when absent). -/
def dget {α β : Type} [DecidableEq α] : List (α × β) → α → Option β
  | [], _ => none
  | (k, v) :: rest, key => if key = k then some v else dget rest key

/-- The per-phase route favorability table of
`MonsoonCalculator.is_navigation_favorable`. -/
def route_favorability (p : MonsoonPhase) : List ((String × String) × ℚ) :=
  match p with
  | .northeast =>
      [(("java", "sumatra"), 8/10),
       (("borneo", "sulawesi"), 9/10),
       (("mindanao", "visayas"), 7/10)]
  | .southwest =>
      [(("sumatra", "java"), 8/10),
       (("sulawesi", "borneo"), 9/10),
       (("visayas", "mindanao"), 7/10)]
  | .transition => []

/-- `MonsoonCalculator.is_navigation_favorable(origin, destination)`:
forward ordered-pair lookup, falling back to the reverse pair, neutral
0.5 if neither; favorable iff the factor exceeds 0.6. -/
def MonsoonCalculator.is_navigation_favorable (m : MonsoonCalculator)
    (origin destination : String) : Bool × ℚ :=
  let route_key := (strLower origin, strLower destination)
  let reverse_key := (strLower destination, strLower origin)
  let favorability := route_favorability m.current_phase
  let factor := (dget favorability route_key).getD
    ((dget favorability reverse_key).getD (5/10))
  (decide (factor > 6/10), factor)

/-- `NetworkSyncCalculator.SYNC_THRESHOLD`. -/
def SYNC_THRESHOLD : ℚ := 75/100

/-- `NetworkSyncCalculator.DISRUPTION_THRESHOLD`. -/
def DISRUPTION_THRESHOLD : ℚ := 3/10

/-- `NetworkSyncCalculator.TRANSCENDENCE_THRESHOLD`. -/
def TRANSCENDENCE_THRESHOLD : ℚ := 95/100

/-- `NetworkSyncCalculator._calculate_cultural_alignment`: with fewer
than two islands, 1.0; otherwise collect the mean resonance of every
island whose resonance map is non-empty (0.5 when none remain) and turn
the population variance of those means into an alignment score. -/
def calculate_cultural_alignment (islands : List IslandState) : ℚ :=
  if islands.length < 2 then 1
  else
    let all_resonances :=
      (islands.filter (fun island => island.cultural_resonance ≠ [])).map
        (fun island =>
          (island.cultural_resonance.map Prod.snd).sum /
            (island.cultural_resonance.length : ℚ))
    if all_resonances = [] then 5/10
    else
      let mean_resonance := all_resonances.sum / (all_resonances.length : ℚ)
      let variance :=
        (all_resonances.map (fun x => (x - mean_resonance) ^ 2)).sum /
          (all_resonances.length : ℚ)
      fmax 0 (1 - variance)

/-- `NetworkSyncCalculator.calculate_network_coherence`: 0.0 on an empty
registry, else the average of mean connectivity and cultural alignment. -/
def calculate_network_coherence (islands : List IslandState) : ℚ :=
  if islands = [] then 0
  else
    let total_connectivity :=
      (islands.map IslandState.network_connectivity).sum
    let avg_connectivity := total_connectivity / (islands.length : ℚ)
    let cultural_alignment := calculate_cultural_alignment islands
    (avg_connectivity + cultural_alignment) / 2

/-- The specialization synergy table of
`NusantaraMovementController._calculate_specialization_synergy`. -/
def synergies : List ((IslandSpecialization × IslandSpecialization) × ℚ) :=
  [((.maritime_hub, .spice_producer), 2/10),
   ((.tech_entrepot, .cultural_node), 25/100),
   ((.cultural_node, .spice_producer), 15/100),
   ((.maritime_hub, .tech_entrepot), 3/10)]

/-- `_calculate_specialization_synergy(origin, dest)`: pairwise lookup,
forward then reverse ordering, defaulting to 0.0. -/
def calculate_specialization_synergy (origin dest : IslandState) : ℚ :=
  let pair := (origin.specialization, dest.specialization)
  let reverse_pair := (dest.specialization, origin.specialization)
  (dget synergies pair).getD ((dget synergies reverse_pair).getD 0)

/-- The success-probability computation inlined in
`navigate_between_islands` (lines 237–243): clamp of mean connectivity
plus monsoon bonus plus synergy bonus. -/
def final_success_prob (origin_island dest_island : IslandState)
    (is_favorable : Bool) : ℚ :=
  let base_success :=
    (origin_island.network_connectivity + dest_island.network_connectivity) / 2
  let monsoon_bonus : ℚ := if is_favorable then 3/10 else -(2/10)
  let synergy_bonus := calculate_specialization_synergy origin_island dest_island
  fmin (95/100) (fmax (5/100) (base_success + monsoon_bonus + synergy_bonus))

/-- Controller state: the island registry (a name-unique association
list, the embedding of the Python dict keyed by `island.name`), the
monsoon calculator, the derived network state, and the aggregate
counters of `NusantaraMovementController.__init__`. -/
structure Controller where
  islands : List IslandState
  monsoon_calc : MonsoonCalculator
  network_state : NetworkState
  total_voyages : Nat
  successful_voyages : Nat
  cultural_exchanges : Nat
  innovation_transfers : Nat
  disruption_events : Nat
  route_history : List (String × String × Bool)
deriving DecidableEq, Repr

/-- Registry lookup: the first island whose name matches
(Python `self.islands[name]` / `name in self.islands`). -/
def getIsland : List IslandState → String → Option IslandState
  | [], _ => none
  | i :: rest, n => if i.name = n then some i else getIsland rest n

/-- Registry store, `self.islands[isl.name] = isl` on a unique-key dict:
replace the entry with that name, appending when absent. -/
def setIsland : List IslandState → IslandState → List IslandState
  | [], isl => [isl]
  | i :: rest, isl =>
      if i.name = isl.name then isl :: rest else i :: setIsland rest isl

/-- The island value built for each name in
`NusantaraMovementController.__init__`. -/
def initIsland (name : String) (spec : IslandSpecialization) : IslandState :=
  { name := name
    specialization := spec
    autonomy_level := 8/10
    network_connectivity := 4/10
    cultural_resonance := [("shared_heritage", 6/10), ("trade_language", 5/10)]
    resource_capacity := 100
    innovation_index := 0 }

/-- `NusantaraMovementController.__init__(island_network)`: build the
registry from the name-to-specialization mapping (no validation is
performed) and zero every counter. -/
def mkController (island_network : List (String × IslandSpecialization)) :
    Controller :=
  { islands := island_network.map (fun p => initIsland p.1 p.2)
    monsoon_calc := { current_phase := .northeast, day_counter := 0 }
    network_state := .fragmented
    total_voyages := 0
    successful_voyages := 0
    cultural_exchanges := 0
    innovation_transfers := 0
    disruption_events := 0
    route_history := [] }

/-- `voyage_success_rate` property: 0.0 before any voyage, otherwise the
success ratio. -/
def voyage_success_rate (c : Controller) : ℚ :=
  if c.total_voyages = 0 then 0
  else (c.successful_voyages : ℚ) / (c.total_voyages : ℚ)

/-- `network_coherence` property of the controller. -/
def network_coherence (c : Controller) : ℚ :=
  calculate_network_coherence c.islands

/-- The state derivation of `_update_network_state` as a function of
coherence, total voyages and success rate (first matching threshold
wins). -/
def deriveNetworkState (coherence : ℚ) (total_voyages : Nat)
    (success_rate : ℚ) : NetworkState :=
  if coherence ≥ TRANSCENDENCE_THRESHOLD then .transcendent
  else if coherence ≥ SYNC_THRESHOLD then .synchronized
  else if coherence ≤ DISRUPTION_THRESHOLD then .disrupted
  else if total_voyages > 0 ∧ success_rate > 5/10 then .connecting
  else .fragmented

/-- `NusantaraMovementController._update_network_state`. -/
def update_network_state (c : Controller) : Controller :=
  let ns :=
    deriveNetworkState (network_coherence c) c.total_voyages
      (voyage_success_rate c)
  { c with network_state := ns }

/-- `NusantaraMovementController._update_island_connectivity`: a fresh
island value with connectivity clamped into [0, 1], all other fields
copied. -/
def update_island_connectivity (island : IslandState) (change : ℚ) :
    IslandState :=
  { name := island.name
    specialization := island.specialization
    autonomy_level := island.autonomy_level
    network_connectivity :=
      fmax 0 (fmin 1 (island.network_connectivity + change))
    cultural_resonance := island.cultural_resonance
    resource_capacity := island.resource_capacity
    innovation_index := island.innovation_index }

/-- One sample of the ambient random source consumed by a voyage: the
uniform success roll and the payload draws of
`_execute_successful_voyage` / `_generate_knowledge_transfer`. -/
structure VoyageDraw where
  roll : ℚ
  navigation_knowledge : Int
  trade_practices : Int
  cultural_artifacts : Int
  trade_volume : Int
  knowledge_sample : List String
deriving DecidableEq, Repr

/-- `NusantaraMovementController._execute_successful_voyage`: bump the
cultural-exchange counter, boost both endpoints by 0.1 connectivity,
and synthesize the success payload. -/
def execute_successful_voyage (c : Controller)
    (origin dest : IslandState) (d : VoyageDraw) :
    Controller × NavigationResult :=
  let c := { c with cultural_exchanges := c.cultural_exchanges + 1 }
  let connectivity_boost : ℚ := 1/10
  let isl1 := setIsland c.islands (update_island_connectivity origin connectivity_boost)
  let c := { c with islands := isl1 }
  let isl2 := setIsland c.islands (update_island_connectivity dest connectivity_boost)
  let c := { c with islands := isl2 }
  let cultural_exchange :=
    [("navigation_knowledge", d.navigation_knowledge),
     ("trade_practices", d.trade_practices),
     ("cultural_artifacts", d.cultural_artifacts)]
  let network_effects :=
    ["Strengthened " ++ origin.name ++ "-" ++ dest.name ++ " trade route",
     "Enhanced cultural resonance between islands"]
  (c,
   { success := true
     origin_island := origin.name
     destination_island := dest.name
     route_taken := origin.name ++ " to " ++ dest.name ++ " via monsoon currents"
     monsoon_favorable := true
     cultural_exchange := cultural_exchange
     trade_volume := d.trade_volume
     knowledge_transferred := d.knowledge_sample
     network_effects := network_effects })

/-- `NusantaraMovementController._handle_navigation_failure`: bump the
disruption counter and reduce the origin's connectivity by 0.05. -/
def handle_navigation_failure (c : Controller)
    (origin destination : String) : Controller × NavigationResult :=
  let c := { c with disruption_events := c.disruption_events + 1 }
  let c :=
    match getIsland c.islands origin with
    | some origin_island =>
        let isl := setIsland c.islands (update_island_connectivity origin_island (-(5/100)))
        { c with islands := isl }
    | none => c
  (c,
   { success := false
     origin_island := origin
     destination_island := destination
     route_taken := "Navigation failed"
     monsoon_favorable := false
     cultural_exchange := []
     trade_volume := 0
     knowledge_transferred := []
     network_effects :=
       ["Route disruption between " ++ origin ++ " and " ++ destination] })

/-- The usage-error raised on an unknown island name (`ValueError` in
the source, `UnknownIslandError` in the specification's taxonomy). An
error carries the controller state at raise time, so that what a caller
observes after the exception is part of the model. -/
inductive NavError where
  | UnknownIslandError (msg : String)
deriving DecidableEq, Repr

/-- `NusantaraMovementController.navigate_between_islands`: validate the
names, count the voyage, compute favorability and success probability,
draw the outcome, apply the success or failure effects, re-derive the
network state and advance the monsoon cycle by one day. -/
def navigate_between_islands (c : Controller)
    (origin destination : String) (d : VoyageDraw) :
    Except (NavError × Controller) (Controller × NavigationResult) :=
  match getIsland c.islands origin, getIsland c.islands destination with
  | some origin_island, some dest_island =>
      let c := { c with total_voyages := c.total_voyages + 1 }
      let fav := c.monsoon_calc.is_navigation_favorable origin destination
      let is_favorable := fav.1
      let final_prob := final_success_prob origin_island dest_island is_favorable
      let navigation_success := decide (d.roll < final_prob)
      let step :=
        if navigation_success then
          let c := { c with successful_voyages := c.successful_voyages + 1 }
          execute_successful_voyage c origin_island dest_island d
        else
          handle_navigation_failure c origin destination
      let c := update_network_state step.1
      let c := { c with monsoon_calc := c.monsoon_calc.advance_cycle 1 }
      .ok (c, step.2)
  | _, _ =>
      .error
        (.UnknownIslandError ("Unknown islands: " ++ origin ++ " or " ++ destination), c)

deriving instance DecidableEq for Except

/-- Controller states reachable from some start state by a sequence of
completed voyages (a voyage that raises `UnknownIslandError` leaves the
state unchanged, so it is covered by reflexivity). -/
inductive Reachable : Controller → Controller → Prop where
  | refl (c : Controller) : Reachable c c
  | voyage (c c' c'' : Controller) (o dst : String) (d : VoyageDraw)
      (r : NavigationResult) (hr : Reachable c c')
      (hnav : navigate_between_islands c' o dst d = .ok (c'', r)) :
      Reachable c c''

/-- The per-island mean cultural resonances entering the alignment
computation, written following the specification: islands with empty
resonance maps are excluded. -/
def resonanceMeans (islands : List IslandState) : List ℚ :=
  (islands.filter (fun i => i.cultural_resonance ≠ [])).map
    (fun i => (i.cultural_resonance.map Prod.snd).sum /
      (i.cultural_resonance.length : ℚ))

/-- Population variance of a list of rationals, written following the
specification's wording for the alignment computation. -/
def popVariance (xs : List ℚ) : ℚ :=
  (xs.map (fun x => (x - xs.sum / (xs.length : ℚ)) ^ 2)).sum / (xs.length : ℚ)

/-- The success-probability formula as the specification words it:
clamp(base + monsoonBonus + synergyBonus, 0.05, 0.95) with the synergy
table checked in both orderings, defaulting to 0.0. -/
def successProbabilityFormula (oi di : IslandState) (fav : Bool) : ℚ :=
  fmax (5/100) (fmin (95/100)
    ((oi.network_connectivity + di.network_connectivity) / 2 +
      (if fav then 3/10 else -(2/10)) +
      (dget synergies (oi.specialization, di.specialization)).getD
        ((dget synergies (di.specialization, oi.specialization)).getD 0)))

/-- A two-island fixture used by concrete witnesses. -/
def sampleNetwork : List (String × IslandSpecialization) :=
  [("java", .cultural_node), ("sumatra", .spice_producer)]

/-- The controller built from `sampleNetwork`. -/
def sampleController : Controller := mkController sampleNetwork

/-- A draw whose roll 0.9 fails every voyage with success probability
below 0.9. -/
def failDraw : VoyageDraw :=
  { roll := 9/10
    navigation_knowledge := 1
    trade_practices := 1
    cultural_artifacts := 0
    trade_volume := 50
    knowledge_sample := [] }

/-- A draw whose roll 0 succeeds at any positive success probability. -/
def passDraw : VoyageDraw :=
  { roll := 0
    navigation_knowledge := 2
    trade_practices := 1
    cultural_artifacts := 1
    trade_volume := 120
    knowledge_sample := ["religious_practices", "agricultural_methods"] }

/-- The controller state after the failed fixture voyage
java → sumatra under `failDraw` (probability 0.85, roll 0.9). -/
def cAfterFail : Controller :=
  { islands :=
      [update_island_connectivity (initIsland "java" .cultural_node) (-(5/100)),
       initIsland "sumatra" .spice_producer]
    monsoon_calc := { current_phase := .northeast, day_counter := 1 }
    network_state := .fragmented
    total_voyages := 1
    successful_voyages := 0
    cultural_exchanges := 0
    innovation_transfers := 0
    disruption_events := 1
    route_history := [] }

/-- The result of the failed fixture voyage. -/
def resAfterFail : NavigationResult :=
  { success := false
    origin_island := "java"
    destination_island := "sumatra"
    route_taken := "Navigation failed"
    monsoon_favorable := false
    cultural_exchange := []
    trade_volume := 0
    knowledge_transferred := []
    network_effects := ["Route disruption between java and sumatra"] }

/-- The controller state after the successful fixture voyage
java → sumatra under `passDraw` (probability 0.85, roll 0). -/
def cAfterPass : Controller :=
  { islands :=
      [update_island_connectivity (initIsland "java" .cultural_node) (1/10),
       update_island_connectivity (initIsland "sumatra" .spice_producer) (1/10)]
    monsoon_calc := { current_phase := .northeast, day_counter := 1 }
    network_state := .synchronized
    total_voyages := 1
    successful_voyages := 1
    cultural_exchanges := 1
    innovation_transfers := 0
    disruption_events := 0
    route_history := [] }

/-- The result of the successful fixture voyage. -/
def resAfterPass : NavigationResult :=
  { success := true
    origin_island := "java"
    destination_island := "sumatra"
    route_taken := "java to sumatra via monsoon currents"
    monsoon_favorable := true
    cultural_exchange :=
      [("navigation_knowledge", 2), ("trade_practices", 1), ("cultural_artifacts", 1)]
    trade_volume := 120
    knowledge_transferred := ["religious_practices", "agricultural_methods"]
    network_effects :=
      ["Strengthened java-sumatra trade route",
       "Enhanced cultural resonance between islands"] }

lemma fmin_eq_min (a b : ℚ) : fmin a b = min a b := by
  rw [fmin, min_def]

lemma fmax_eq_max (a b : ℚ) : fmax a b = max a b := by
  rcases le_total a b with h | h
  · rcases eq_or_lt_of_le h with rfl | hlt
    · simp [fmax, max_def]
    · rw [fmax, if_neg (not_le.mpr hlt), max_eq_right h]
  · rw [fmax, if_pos h, max_eq_left h]

lemma getIsland_name {l : List IslandState} {n : String} {i : IslandState}
    (h : getIsland l n = some i) : i.name = n := by
  induction l with
  | nil => simp [getIsland] at h
  | cons a rest ih =>
      by_cases ha : a.name = n
      · rw [getIsland, if_pos ha] at h
        cases h
        exact ha
      · rw [getIsland, if_neg ha] at h
        exact ih h

lemma getIsland_setIsland_self (l : List IslandState) (isl : IslandState) :
    getIsland (setIsland l isl) isl.name = some isl := by
  induction l with
  | nil => simp [setIsland, getIsland]
  | cons a rest ih =>
      by_cases ha : a.name = isl.name
      · rw [setIsland, if_pos ha, getIsland, if_pos rfl]
      · rw [setIsland, if_neg ha, getIsland, if_neg ha]
        exact ih

lemma getIsland_setIsland_ne (l : List IslandState) (isl : IslandState)
    (n : String) (h : n ≠ isl.name) :
    getIsland (setIsland l isl) n = getIsland l n := by
  induction l with
  | nil =>
      rw [setIsland, getIsland, getIsland, if_neg (fun hh => h hh.symm), getIsland]
  | cons a rest ih =>
      by_cases ha : a.name = isl.name
      · rw [setIsland, if_pos ha, getIsland, getIsland,
          if_neg (fun hh : isl.name = n => h hh.symm),
          if_neg (fun hh : a.name = n => h (ha ▸ hh).symm)]
      · rw [setIsland, if_neg ha, getIsland, getIsland]
        by_cases han : a.name = n
        · rw [if_pos han, if_pos han]
        · rw [if_neg han, if_neg han]
          exact ih

lemma mem_setIsland {l : List IslandState} {isl i : IslandState}
    (h : i ∈ setIsland l isl) : i ∈ l ∨ i = isl := by
  induction l with
  | nil =>
      simp [setIsland] at h
      exact Or.inr h
  | cons a rest ih =>
      by_cases ha : a.name = isl.name
      · rw [setIsland, if_pos ha] at h
        rcases List.mem_cons.mp h with h | h
        · exact Or.inr h
        · exact Or.inl (List.mem_cons_of_mem a h)
      · rw [setIsland, if_neg ha] at h
        rcases List.mem_cons.mp h with h | h
        · exact Or.inl (h ▸ List.mem_cons_self a rest)
        · rcases ih h with h | h
          · exact Or.inl (List.mem_cons_of_mem a h)
          · exact Or.inr h

lemma navigate_ok_cases (c : Controller) (o dst : String) (d : VoyageDraw)
    (c' : Controller) (res : NavigationResult)
    (h : navigate_between_islands c o dst d = .ok (c', res)) :
    ∃ oi di, getIsland c.islands o = some oi ∧ getIsland c.islands dst = some di ∧
      c'.total_voyages = c.total_voyages + 1 ∧
      ((res.success = true ∧ res.monsoon_favorable = true ∧
        c'.islands =
          setIsland (setIsland c.islands (update_island_connectivity oi (1/10)))
            (update_island_connectivity di (1/10)) ∧
        c'.cultural_exchanges = c.cultural_exchanges + 1 ∧
        c'.disruption_events = c.disruption_events ∧
        c'.successful_voyages = c.successful_voyages + 1) ∨
       (res.success = false ∧ res.monsoon_favorable = false ∧
        c'.islands = setIsland c.islands (update_island_connectivity oi (-(5/100))) ∧
        c'.cultural_exchanges = c.cultural_exchanges ∧
        c'.disruption_events = c.disruption_events + 1 ∧
        c'.successful_voyages = c.successful_voyages)) := by
  unfold navigate_between_islands at h
  split at h
  case h_2 => exact absurd h (by simp)
  case h_1 oi di hgo hgd =>
    refine ⟨oi, di, hgo, hgd, ?_⟩
    dsimp only at h
    split at h
    case isTrue hroll =>
      simp only [Except.ok.injEq, Prod.mk.injEq] at h
      obtain ⟨hc, hres⟩ := h
      subst hc
      subst hres
      refine ⟨rfl, Or.inl ⟨rfl, rfl, ?_, rfl, rfl, rfl⟩⟩
      simp [execute_successful_voyage, update_network_state]
    case isFalse hroll =>
      rw [handle_navigation_failure] at h
      dsimp only at h
      rw [hgo] at h
      simp only [Except.ok.injEq, Prod.mk.injEq] at h
      obtain ⟨hc, hres⟩ := h
      subst hc
      subst hres
      refine ⟨rfl, Or.inr ⟨rfl, rfl, ?_, rfl, rfl, rfl⟩⟩
      simp [update_network_state]

/-- Claim C1 counterexample: starting from the northeast monsoon, four
consecutive threshold crossings give northeast, transition, southwest,
transition, southwest — the transition period that follows southwest is
followed by southwest again, not by northeast as the claim states. -/
theorem C1_counterexample :
    ((((MonsoonCalculator.mk .northeast 0).advance_cycle 180).advance_cycle
          180).advance_cycle 180).advance_cycle 180 =
      { current_phase := .southwest, day_counter := 0 } ∧
    MonsoonPhase.southwest ≠ MonsoonPhase.northeast := by
  decide

/-- Claim C1 (amended): advancing the cycle to the phase-duration
threshold (180 ticks) resets the day counter to 0 and transitions the
phase exactly once per call, via the fixed map northeast → transition,
transition → southwest, southwest → transition (after the first
northeast phase the cycle alternates between transition and southwest;
northeast never recurs). Below the threshold nothing transitions. -/
theorem C1_advance_cycle (m : MonsoonCalculator) (days : Int) :
    (phase_duration ≤ m.day_counter + days →
      m.advance_cycle days =
        { current_phase := transition_phase_map m.current_phase,
          day_counter := 0 }) ∧
    (m.day_counter + days < phase_duration →
      m.advance_cycle days =
        { current_phase := m.current_phase,
          day_counter := m.day_counter + days }) ∧
    transition_phase_map .northeast = .transition ∧
    transition_phase_map .transition = .southwest ∧
    transition_phase_map .southwest = .transition := by
  refine ⟨?_, ?_, rfl, rfl, rfl⟩
  · intro h
    rw [MonsoonCalculator.advance_cycle]
    exact if_pos h
  · intro h
    rw [MonsoonCalculator.advance_cycle]
    exact if_neg (not_le.mpr h)

/-- Witness for C1: a concrete threshold crossing (day 179 plus one day)
transitions northeast to transition and resets the counter; a concrete
sub-threshold advance only accumulates days. -/
theorem C1_advance_cycle_witness :
    (MonsoonCalculator.mk .northeast 179).advance_cycle 1 =
      { current_phase := .transition, day_counter := 0 } ∧
    (MonsoonCalculator.mk .northeast 0).advance_cycle 5 =
      { current_phase := .northeast, day_counter := 5 } :=
  ⟨(C1_advance_cycle ⟨.northeast, 179⟩ 1).1 (by decide),
   (C1_advance_cycle ⟨.northeast, 0⟩ 5).2.1 (by decide)⟩

/-- Claim C3: when either island name is missing from the registry,
navigation raises `UnknownIslandError` and the controller state carried
with the error is exactly the pre-call state — every counter, island,
the monsoon state and the network state are unchanged. -/
theorem C3_unknown_island (c : Controller) (o dst : String) (d : VoyageDraw)
    (h : getIsland c.islands o = none ∨ getIsland c.islands dst = none) :
    navigate_between_islands c o dst d =
      .error
        (.UnknownIslandError ("Unknown islands: " ++ o ++ " or " ++ dst), c) := by
  rw [navigate_between_islands]
  rcases h with h | h
  · rw [h]
  · rw [h]
    cases getIsland c.islands o <;> rfl

/-- Witness for C3: navigating from the unknown island "atlantis" on the
two-island fixture errors out and returns the untouched controller. -/
theorem C3_unknown_island_witness :
    navigate_between_islands sampleController "atlantis" "x" failDraw =
      .error
        (.UnknownIslandError ("Unknown islands: " ++ "atlantis" ++ " or " ++ "x"),
          sampleController) :=
  C3_unknown_island sampleController "atlantis" "x" failDraw (Or.inl (by decide))

/-- Claim C10: for every completed voyage the `monsoon_favorable` field
of the returned result equals the voyage's success flag, regardless of
the favorability computed by the monsoon engine. -/
theorem C10_monsoon_flag_mirrors_success (c : Controller) (o dst : String)
    (d : VoyageDraw) (c' : Controller) (res : NavigationResult)
    (h : navigate_between_islands c o dst d = .ok (c', res)) :
    res.monsoon_favorable = res.success := by
  obtain ⟨oi, di, -, -, -, hcase⟩ := navigate_ok_cases c o dst d c' res h
  rcases hcase with ⟨hs, hm, -⟩ | ⟨hs, hm, -⟩ <;> rw [hs, hm]

/-- Witness for C10: the failed fixture voyage yields a result whose
monsoon-favorable flag equals its success flag. -/
theorem C10_monsoon_flag_mirrors_success_witness :
    resAfterFail.monsoon_favorable = resAfterFail.success :=
  C10_monsoon_flag_mirrors_success sampleController "java" "sumatra" failDraw
    cAfterFail resAfterFail (by decide)

/-- Claim C4 counterexample: a completed failed self-voyage
(origin = destination = "java", allowed by the navigation entry point)
changes the destination island: its connectivity drops from 2/5 to 7/20,
so the destination is not "entirely unchanged" on failure as claimed. -/
theorem C4_counterexample :
    (navigate_between_islands sampleController "java" "java" failDraw).toOption.map
        (fun p => (p.2.success,
          (getIsland p.1.islands "java").map IslandState.network_connectivity)) =
      some (false, some (7/20)) ∧
    (getIsland sampleController.islands "java").map
        IslandState.network_connectivity = some (2/5) ∧
    (7/20 : ℚ) ≠ 2/5 := by
  refine ⟨by decide, by decide, by decide⟩

/-- Claim C4 (amended): for every completed voyage — on success the
cultural-exchange counter rises by exactly 1 (whatever the synthesized
payload), both endpoints gain +0.1 connectivity (clamped into [0,1]) and
all other islands are untouched; on failure the disruption counter rises
by exactly 1, the origin loses 0.05 connectivity (clamped at 0), all
islands other than the origin are untouched, and — provided the
destination is distinct from the origin — the destination island is
entirely unchanged; on both paths a connectivity update changes no
island field other than the clamped connectivity. -/
theorem C4_voyage_effects (c : Controller) (o dst : String) (d : VoyageDraw)
    (oi di : IslandState) (c' : Controller) (res : NavigationResult)
    (ho : getIsland c.islands o = some oi)
    (hd : getIsland c.islands dst = some di)
    (h : navigate_between_islands c o dst d = .ok (c', res)) :
    (res.success = true →
      c'.cultural_exchanges = c.cultural_exchanges + 1 ∧
      c'.disruption_events = c.disruption_events ∧
      getIsland c'.islands o = some (update_island_connectivity oi (1/10)) ∧
      getIsland c'.islands dst = some (update_island_connectivity di (1/10)) ∧
      (∀ n, n ≠ o → n ≠ dst → getIsland c'.islands n = getIsland c.islands n)) ∧
    (res.success = false →
      c'.disruption_events = c.disruption_events + 1 ∧
      c'.cultural_exchanges = c.cultural_exchanges ∧
      getIsland c'.islands o = some (update_island_connectivity oi (-(5/100))) ∧
      (dst ≠ o → getIsland c'.islands dst = some di) ∧
      (∀ n, n ≠ o → getIsland c'.islands n = getIsland c.islands n)) ∧
    (∀ (i : IslandState) (q : ℚ),
      (update_island_connectivity i q).name = i.name ∧
      (update_island_connectivity i q).specialization = i.specialization ∧
      (update_island_connectivity i q).autonomy_level = i.autonomy_level ∧
      (update_island_connectivity i q).cultural_resonance = i.cultural_resonance ∧
      (update_island_connectivity i q).resource_capacity = i.resource_capacity ∧
      (update_island_connectivity i q).innovation_index = i.innovation_index ∧
      (update_island_connectivity i q).network_connectivity =
        fmax 0 (fmin 1 (i.network_connectivity + q))) := by
  obtain ⟨oi', di', ho', hd', -, hcase⟩ := navigate_ok_cases c o dst d c' res h
  rw [ho] at ho'
  rw [hd] at hd'
  cases ho'
  cases hd'
  have hon : oi.name = o := getIsland_name ho
  have hdn : di.name = dst := getIsland_name hd
  refine ⟨?_, ?_, fun i q => ⟨rfl, rfl, rfl, rfl, rfl, rfl, rfl⟩⟩
  · intro hs
    rcases hcase with ⟨-, -, hisl, hce, hde, -⟩ | ⟨hf, -⟩
    · refine ⟨hce, hde, ?_, ?_, ?_⟩
      · by_cases hod : o = dst
        · subst hod
          rw [ho] at hd
          cases hd
          rw [hisl]
          have hn : (update_island_connectivity oi (1/10)).name = o := hon
          rw [← hn]
          exact getIsland_setIsland_self _ _
        · rw [hisl,
            getIsland_setIsland_ne _ _ o
              (by rw [update_island_connectivity]; exact hdn ▸ hod)]
          have hn : (update_island_connectivity oi (1/10)).name = o := hon
          rw [← hn]
          exact getIsland_setIsland_self _ _
      · rw [hisl]
        have hn : (update_island_connectivity di (1/10)).name = dst := hdn
        rw [← hn]
        exact getIsland_setIsland_self _ _
      · intro n hno hnd
        rw [hisl,
          getIsland_setIsland_ne _ _ n
            (by rw [update_island_connectivity]; exact hdn ▸ hnd),
          getIsland_setIsland_ne _ _ n
            (by rw [update_island_connectivity]; exact hon ▸ hno)]
    · rw [hs] at hf
      cases hf
  · intro hs
    rcases hcase with ⟨ht, -⟩ | ⟨-, -, hisl, hce, hde, -⟩
    · rw [hs] at ht
      cases ht
    · refine ⟨hde, hce, ?_, ?_, ?_⟩
      · rw [hisl]
        have hn : (update_island_connectivity oi (-(5/100))).name = o := hon
        rw [← hn]
        exact getIsland_setIsland_self _ _
      · intro hdo
        rw [hisl,
          getIsland_setIsland_ne _ _ dst
            (by rw [update_island_connectivity]; exact hon ▸ hdo)]
        exact hd
      · intro n hno
        rw [hisl,
          getIsland_setIsland_ne _ _ n
            (by rw [update_island_connectivity]; exact hon ▸ hno)]

/-- Witness for C4: on the concrete failed fixture voyage the disruption
counter rises by one, the cultural-exchange counter is unchanged, the
origin's connectivity is reduced by the clamped 0.05 penalty, and the
distinct destination island is exactly the untouched initial island. -/
theorem C4_voyage_effects_witness :
    cAfterFail.disruption_events = sampleController.disruption_events + 1 ∧
    cAfterFail.cultural_exchanges = sampleController.cultural_exchanges ∧
    getIsland cAfterFail.islands "java" =
      some (update_island_connectivity (initIsland "java" .cultural_node) (-(5/100))) ∧
    getIsland cAfterFail.islands "sumatra" =
      some (initIsland "sumatra" .spice_producer) := by
  have h := C4_voyage_effects sampleController "java" "sumatra" failDraw
    (initIsland "java" .cultural_node) (initIsland "sumatra" .spice_producer)
    cAfterFail resAfterFail (by decide) (by decide) (by decide)
  have h2 := h.2.1 (by decide)
  exact ⟨h2.1, h2.2.1, h2.2.2.1, h2.2.2.2.1 (by decide)⟩

lemma getIsland_mem {l : List IslandState} {n : String} {i : IslandState}
    (h : getIsland l n = some i) : i ∈ l := by
  induction l with
  | nil => simp [getIsland] at h
  | cons a rest ih =>
      by_cases ha : a.name = n
      · rw [getIsland, if_pos ha] at h
        obtain rfl := Option.some.inj h
        exact List.mem_cons_self _ _
      · rw [getIsland, if_neg ha] at h
        exact List.mem_cons_of_mem a (ih h)

lemma update_island_connectivity_bounds (i : IslandState) (q : ℚ) :
    0 ≤ (update_island_connectivity i q).network_connectivity ∧
    (update_island_connectivity i q).network_connectivity ≤ 1 := by
  rw [update_island_connectivity]
  dsimp only
  rw [fmax_eq_max, fmin_eq_min]
  exact ⟨le_max_left 0 _, max_le (by norm_num) (min_le_left _ _)⟩

lemma reachable_preserves_bounds {c c' : Controller} (h : Reachable c c') :
    (∀ i ∈ c.islands,
      0 ≤ i.network_connectivity ∧ i.network_connectivity ≤ 1 ∧
      0 ≤ i.autonomy_level ∧ i.autonomy_level ≤ 1) →
    ∀ i ∈ c'.islands,
      0 ≤ i.network_connectivity ∧ i.network_connectivity ≤ 1 ∧
      0 ≤ i.autonomy_level ∧ i.autonomy_level ≤ 1 := by
  induction h with
  | refl => exact fun hc => hc
  | voyage c1 c2 o dst d r hr hnav ih =>
      intro hc i hi
      have h1 := ih hc
      obtain ⟨oi, di, ho, hd, -, hcase⟩ := navigate_ok_cases c1 o dst d c2 r hnav
      have hoi := getIsland_mem ho
      have hdi := getIsland_mem hd
      rcases hcase with ⟨-, -, hisl, -⟩ | ⟨-, -, hisl, -⟩
      · rw [hisl] at hi
        rcases mem_setIsland hi with hi | rfl
        · rcases mem_setIsland hi with hi | rfl
          · exact h1 i hi
          · exact ⟨(update_island_connectivity_bounds _ _).1,
              (update_island_connectivity_bounds _ _).2,
              (h1 oi hoi).2.2.1, (h1 oi hoi).2.2.2⟩
        · exact ⟨(update_island_connectivity_bounds _ _).1,
            (update_island_connectivity_bounds _ _).2,
            (h1 di hdi).2.2.1, (h1 di hdi).2.2.2⟩
      · rw [hisl] at hi
        rcases mem_setIsland hi with hi | rfl
        · exact h1 i hi
        · exact ⟨(update_island_connectivity_bounds _ _).1,
            (update_island_connectivity_bounds _ _).2,
            (h1 oi hoi).2.2.1, (h1 oi hoi).2.2.2⟩

/-- Claim C7: every controller state reachable from initialization by
any sequence of voyages keeps every island's connectivity and autonomy
inside [0, 1] (initial values 0.4 and 0.8, updates clamped). -/
theorem C7_bounds_invariant (net : List (String × IslandSpecialization))
    (c : Controller) (h : Reachable (mkController net) c) :
    ∀ i ∈ c.islands,
      0 ≤ i.network_connectivity ∧ i.network_connectivity ≤ 1 ∧
      0 ≤ i.autonomy_level ∧ i.autonomy_level ≤ 1 := by
  refine reachable_preserves_bounds h ?_
  intro i hi
  rw [mkController] at hi
  dsimp only at hi
  obtain ⟨p, -, rfl⟩ := List.mem_map.mp hi
  refine ⟨by norm_num [initIsland], by norm_num [initIsland],
    by norm_num [initIsland], by norm_num [initIsland]⟩

/-- Witness for C7: the state after the concrete failed fixture voyage
is reachable, and its updated origin island satisfies the bounds. -/
theorem C7_bounds_invariant_witness :
    0 ≤ (update_island_connectivity (initIsland "java"
        IslandSpecialization.cultural_node) (-(5/100))).network_connectivity ∧
    (update_island_connectivity (initIsland "java"
        IslandSpecialization.cultural_node) (-(5/100))).network_connectivity ≤ 1 ∧
    0 ≤ (update_island_connectivity (initIsland "java"
        IslandSpecialization.cultural_node) (-(5/100))).autonomy_level ∧
    (update_island_connectivity (initIsland "java"
        IslandSpecialization.cultural_node) (-(5/100))).autonomy_level ≤ 1 :=
  C7_bounds_invariant sampleNetwork cAfterFail
    (Reachable.voyage sampleController sampleController cAfterFail
      "java" "sumatra" failDraw resAfterFail (Reachable.refl _) (by decide))
    (update_island_connectivity (initIsland "java" .cultural_node) (-(5/100)))
    (by decide)

/-- Claim C5: the network-state derivation is first-match-wins —
transcendent at coherence ≥ 0.95, else synchronized at ≥ 0.75, else
disrupted at ≤ 0.30, else connecting when voyages exist with success
rate above 0.5, else fragmented; `_update_network_state` stores exactly
this derivation of the current coherence, voyage count and success
rate. -/
theorem C5_network_state_priority (coh sr : ℚ) (tv : Nat) :
    (deriveNetworkState coh tv sr = .transcendent ↔ TRANSCENDENCE_THRESHOLD ≤ coh) ∧
    (deriveNetworkState coh tv sr = .synchronized ↔
      coh < TRANSCENDENCE_THRESHOLD ∧ SYNC_THRESHOLD ≤ coh) ∧
    (deriveNetworkState coh tv sr = .disrupted ↔
      coh < SYNC_THRESHOLD ∧ coh ≤ DISRUPTION_THRESHOLD) ∧
    (deriveNetworkState coh tv sr = .connecting ↔
      DISRUPTION_THRESHOLD < coh ∧ coh < SYNC_THRESHOLD ∧ 0 < tv ∧ 5/10 < sr) ∧
    (deriveNetworkState coh tv sr = .fragmented ↔
      DISRUPTION_THRESHOLD < coh ∧ coh < SYNC_THRESHOLD ∧ ¬(0 < tv ∧ 5/10 < sr)) ∧
    (∀ c : Controller, (update_network_state c).network_state =
      deriveNetworkState (network_coherence c) c.total_voyages (voyage_success_rate c)) := by
  refine ⟨?_, ?_, ?_, ?_, ?_, fun c => rfl⟩ <;>
    rw [deriveNetworkState, TRANSCENDENCE_THRESHOLD, SYNC_THRESHOLD,
      DISRUPTION_THRESHOLD] <;>
    split_ifs with h1 h2 h3 h4 <;>
    simp_all <;>
    try (intros; linarith)

lemma alignment_bounds (islands : List IslandState) :
    0 ≤ calculate_cultural_alignment islands ∧
    calculate_cultural_alignment islands ≤ 1 := by
  rw [calculate_cultural_alignment]
  dsimp only
  split_ifs with h1 h2
  · norm_num
  · norm_num
  · rw [fmax_eq_max]
    refine ⟨le_max_left _ _, max_le (by norm_num) ?_⟩
    apply sub_le_self
    apply div_nonneg
    · apply List.sum_nonneg
      intro x hx
      obtain ⟨y, -, rfl⟩ := List.mem_map.mp hx
      exact sq_nonneg _
    · positivity

lemma avg_connectivity_bounds (islands : List IslandState) (hne : islands ≠ [])
    (h : ∀ i ∈ islands, 0 ≤ i.network_connectivity ∧ i.network_connectivity ≤ 1) :
    0 ≤ (islands.map IslandState.network_connectivity).sum / (islands.length : ℚ) ∧
    (islands.map IslandState.network_connectivity).sum / (islands.length : ℚ) ≤ 1 := by
  have hlen : 0 < (islands.length : ℚ) := by
    exact_mod_cast List.length_pos.mpr hne
  constructor
  · apply div_nonneg _ (le_of_lt hlen)
    apply List.sum_nonneg
    intro x hx
    obtain ⟨y, hy, rfl⟩ := List.mem_map.mp hx
    exact (h y hy).1
  · rw [div_le_one hlen]
    have hle := List.sum_le_card_nsmul (islands.map IslandState.network_connectivity) 1 ?_
    · rw [List.length_map, nsmul_eq_mul, mul_one] at hle
      exact hle
    · intro x hx
      obtain ⟨y, hy, rfl⟩ := List.mem_map.mp hx
      exact (h y hy).2

/-- Claim C6: with all connectivity and resonance values in [0,1] the
network coherence stays in [0,1]; it is exactly 0 on the empty registry;
with fewer than two islands the cultural alignment is 1; with at least
two islands the alignment is 0.5 when every island has an empty
resonance map and otherwise max(0, 1 − population variance of the
per-island mean resonances); on a non-empty registry the coherence is
the average of mean connectivity and alignment. -/
theorem C6_coherence_bounds (islands : List IslandState)
    (h : ∀ i ∈ islands,
      (0 ≤ i.network_connectivity ∧ i.network_connectivity ≤ 1) ∧
      ∀ p ∈ i.cultural_resonance, 0 ≤ p.2 ∧ p.2 ≤ 1) :
    (0 ≤ calculate_network_coherence islands ∧
      calculate_network_coherence islands ≤ 1) ∧
    calculate_network_coherence [] = 0 ∧
    (islands.length < 2 → calculate_cultural_alignment islands = 1) ∧
    (2 ≤ islands.length → resonanceMeans islands = [] →
      calculate_cultural_alignment islands = 5/10) ∧
    (2 ≤ islands.length → resonanceMeans islands ≠ [] →
      calculate_cultural_alignment islands =
        fmax 0 (1 - popVariance (resonanceMeans islands))) ∧
    (islands ≠ [] →
      calculate_network_coherence islands =
        ((islands.map IslandState.network_connectivity).sum / (islands.length : ℚ) +
          calculate_cultural_alignment islands) / 2) := by
  refine ⟨?_, by decide, ?_, ?_, ?_, ?_⟩
  · by_cases hne : islands = []
    · subst hne
      norm_num [calculate_network_coherence]
    · have havg := avg_connectivity_bounds islands hne (fun i hi => (h i hi).1)
      have halign := alignment_bounds islands
      rw [calculate_network_coherence, if_neg hne]
      dsimp only
      constructor
      · linarith [havg.1, halign.1]
      · linarith [havg.2, halign.2]
  · intro hlt
    rw [calculate_cultural_alignment, if_pos hlt]
  · intro hge hmeans
    rw [calculate_cultural_alignment, if_neg (not_lt.mpr hge)]
    dsimp only
    rw [if_pos]
    exact hmeans
  · intro hge hmeans
    rw [calculate_cultural_alignment, if_neg (not_lt.mpr hge)]
    dsimp only
    rw [if_neg]
    · rfl
    · exact hmeans
  · intro hne
    rw [calculate_network_coherence, if_neg hne]

/-- Witness for C6: the two-island fixture registry (all values in
[0,1]) has coherence inside [0,1]. -/
theorem C6_coherence_bounds_witness :
    0 ≤ calculate_network_coherence sampleController.islands ∧
    calculate_network_coherence sampleController.islands ≤ 1 :=
  (C6_coherence_bounds sampleController.islands (by decide)).1

lemma clamp_comm (x : ℚ) :
    fmin (95/100) (fmax (5/100) x) = fmax (5/100) (fmin (95/100) x) := by
  rw [fmin_eq_min, fmin_eq_min, fmax_eq_max, fmax_eq_max, min_max_distrib_left]
  norm_num

/-- Claim C2: the success probability computed by the navigation step is
exactly clamp(mean connectivity + monsoon bonus + synergy, 0.05, 0.95)
with the synergy table checked in both orderings defaulting to 0; in
particular two connectivity-0.4 islands with zero synergy under the
neutral, unfavorable monsoon factor 0.5 get probability exactly 0.2. -/
theorem C2_success_probability :
    (∀ oi di fav, final_success_prob oi di fav = successProbabilityFormula oi di fav) ∧
    (MonsoonCalculator.mk .transition 0).is_navigation_favorable "a" "b" =
      (false, 5/10) ∧
    final_success_prob (initIsland "a" .spice_producer)
      (initIsland "b" .spice_producer) false = 1/5 := by
  refine ⟨?_, by decide, by decide⟩
  intro oi di fav
  rw [final_success_prob, successProbabilityFormula, calculate_specialization_synergy]
  exact clamp_comm _

lemma dget_pair_comm (t : List ((String × String) × ℚ)) (a b : String)
    (hs : ∀ x y, dget t (x, y) ≠ none → dget t (y, x) ≠ none → x = y) :
    (dget t (a, b)).getD ((dget t (b, a)).getD (5/10)) =
    (dget t (b, a)).getD ((dget t (a, b)).getD (5/10)) := by
  cases hab : dget t (a, b) with
  | none =>
      cases hba : dget t (b, a) with
      | none => rfl
      | some y => rfl
  | some x =>
      cases hba : dget t (b, a) with
      | none => rfl
      | some y =>
          have hxy : a = b := hs a b (by rw [hab]; simp) (by rw [hba]; simp)
          subst hxy
          rw [hab] at hba
          obtain rfl := Option.some.inj hba
          rfl

lemma route_favorability_oneway (p : MonsoonPhase) :
    ∀ x y, dget (route_favorability p) (x, y) ≠ none →
      dget (route_favorability p) (y, x) ≠ none → x = y := by
  intro x y hxy hyx
  cases p
  case transition => exact absurd rfl hxy
  all_goals
    simp only [route_favorability, dget] at hxy hyx
    split_ifs at hxy hyx <;> simp_all [Prod.mk.injEq]

/-- Claim C8: route favorability looks up the current phase's
ordered-pair table forward first and falls back to the reverse pair; no
phase table contains a pair in both directions, so the resulting factor
is direction-agnostic; the factor defaults to the neutral 0.5 when
neither ordering is present; and the favorable flag holds exactly when
the factor exceeds 0.6. -/
theorem C8_favorability (m : MonsoonCalculator) (o dst : String) :
    ((m.is_navigation_favorable o dst).2 =
      (dget (route_favorability m.current_phase) (strLower o, strLower dst)).getD
        ((dget (route_favorability m.current_phase)
          (strLower dst, strLower o)).getD (5/10))) ∧
    (m.is_navigation_favorable o dst).2 = (m.is_navigation_favorable dst o).2 ∧
    (dget (route_favorability m.current_phase) (strLower o, strLower dst) = none →
      dget (route_favorability m.current_phase) (strLower dst, strLower o) = none →
      (m.is_navigation_favorable o dst).2 = 5/10) ∧
    ((m.is_navigation_favorable o dst).1 = true ↔
      6/10 < (m.is_navigation_favorable o dst).2) := by
  refine ⟨rfl, ?_, ?_, ?_⟩
  · exact dget_pair_comm _ _ _ (route_favorability_oneway m.current_phase)
  · intro h1 h2
    show (dget (route_favorability m.current_phase) (strLower o, strLower dst)).getD
      ((dget (route_favorability m.current_phase)
        (strLower dst, strLower o)).getD (5/10)) = 5/10
    rw [h1, h2]
    rfl
  · exact decide_eq_true_iff

/-- Witness for C8: during the transition phase (empty route table) a
concrete route gets the neutral factor 0.5, via the theorem's
default clause. -/
theorem C8_favorability_witness :
    ((MonsoonCalculator.mk .transition 0).is_navigation_favorable
      "ternate" "tidore").2 = 5/10 :=
  (C8_favorability ⟨.transition, 0⟩ "ternate" "tidore").2.2.1 rfl rfl

/-- Claim C9 counterexample: constructing the controller from the empty
mapping is not rejected — it returns an ordinary controller whose
registry is empty and whose counters are all zero. -/
theorem C9_counterexample :
    (mkController []).islands = [] ∧
    (mkController []).total_voyages = 0 ∧
    (mkController []).network_state = .fragmented := by
  refine ⟨rfl, rfl, rfl⟩

/-- Claim C9 (amended): the constructor performs no validation of the
mapping — for every mapping, the empty one included, it returns a
controller with exactly one island per entry, built with the fixed
defaults autonomy 0.8 and connectivity 0.4. -/
theorem C9_init_no_validation (network : List (String × IslandSpecialization)) :
    (mkController network).islands = network.map (fun p => initIsland p.1 p.2) ∧
    (mkController network).islands.length = network.length ∧
    ∀ i ∈ (mkController network).islands,
      i.autonomy_level = 8/10 ∧ i.network_connectivity = 4/10 := by
  refine ⟨rfl, by rw [mkController]; exact List.length_map _ _, ?_⟩
  intro i hi
  rw [mkController] at hi
  dsimp only at hi
  obtain ⟨p, -, rfl⟩ := List.mem_map.mp hi
  exact ⟨rfl, rfl⟩

/-- Witness for C9: the two-entry fixture mapping yields a two-island
registry whose "java" island carries the default autonomy and
connectivity. -/
theorem C9_init_no_validation_witness :
    (mkController sampleNetwork).islands.length = 2 ∧
    (initIsland "java" IslandSpecialization.cultural_node).autonomy_level = 8/10 ∧
    (initIsland "java" IslandSpecialization.cultural_node).network_connectivity = 4/10 := by
  have h := C9_init_no_validation sampleNetwork
  exact ⟨h.2.1.trans (by decide),
    (h.2.2 (initIsland "java" .cultural_node) (by decide)).1,
    (h.2.2 (initIsland "java" .cultural_node) (by decide)).2⟩
